import Mathlib

/-!
Verification of the elasticsearch-labs notebooks (the Gemma RAG notebook and
the Cohere inference notebook) against their natural-language specification.

The notebooks are linear scripts of calls into managed services.  We embed:
* the fixed-width text-splitting step (chunk_size 50, chunk_overlap 0),
* the metadata-copying document-preparation loop of the Gemma notebook,
* the `format_docs` helper and the LCEL chain of the Gemma notebook,
* the bulk-action preparation loop of the Cohere notebook,
* the sequence of notebook steps of both notebooks (order and error policy),
* the index-setup cell (`indices.delete` with `ignore_unavailable=True`, then
  `indices.create`) over an association-list model of the cluster,
* the `size`/kNN truncation of the semantic-search response.
-/

namespace ElasticsearchLabs

/-! ## Definitions -/

/-! ### Fixed-width character splitting (Gemma notebook, splitting cell)

The notebook configures `CharacterTextSplitter(chunk_size=50, chunk_overlap=0)`
and calls `create_documents(content, metadatas=metadata)`. -/

/-- Modelled from the spec: the implementation of langchain's
`CharacterTextSplitter` is not part of this repository's sources; the spec
describes the text-splitting step as "a fixed-width character splitter
(chunk size, no overlap)".  `chunksOf n s` cuts the character list `s` into
consecutive chunks of width `n` (the last chunk may be shorter), with no
overlap between chunks. -/
def chunksOf (n : Nat) (s : List Char) : List (List Char) :=
  if s = [] then []
  else if n = 0 then [s]
  else s.take n :: chunksOf n (s.drop n)
termination_by s.length
decreasing_by
  simp only [List.length_drop]
  rename_i hs hn
  have h1 : 0 < s.length := List.length_pos.mpr hs
  omega

/-- Splitting a text at the notebook's configured chunk width of 50. -/
def splitText (s : String) : List String :=
  (chunksOf 50 s.toList).map List.asString

/-- The metadata the Gemma notebook copies for each parent document:
`{"name": ..., "summary": ..., "rolePermissions": ...}`. -/
structure DocMetadata where
  name : String
  summary : String
  rolePermissions : String
deriving DecidableEq, Repr

/-- A parent document of the downloaded workplace dataset; the preparation
loop reads its `content`, `name`, `summary` and `rolePermissions` fields. -/
structure WorkplaceDoc where
  content : String
  name : String
  summary : String
  rolePermissions : String
deriving DecidableEq, Repr

/-- The metadata dict built for one parent document. -/
def metadataOf (d : WorkplaceDoc) : DocMetadata :=
  ⟨d.name, d.summary, d.rolePermissions⟩

/-- The loop `for doc in workplace_docs: content.append(doc["content"])`. -/
def contentList (workplace_docs : List WorkplaceDoc) : List String :=
  workplace_docs.foldl (fun acc doc => acc ++ [doc.content]) []

/-- The loop `for doc in workplace_docs: metadata.append({...})`. -/
def metadataList (workplace_docs : List WorkplaceDoc) : List DocMetadata :=
  workplace_docs.foldl (fun acc doc => acc ++ [metadataOf doc]) []

/-- A langchain `Document`: a chunk text together with its metadata. -/
structure Document where
  page_content : String
  metadata : DocMetadata
deriving DecidableEq, Repr

/-- Modelled from the spec: langchain's `create_documents` is not part of this
repository's sources; per the spec it yields "text chunks produced by a
fixed-size splitter with metadata copied from the parent document".  Each text
is split and every resulting chunk receives the metadata passed alongside that
text. -/
def create_documents (texts : List String) (metadatas : List DocMetadata) :
    List Document :=
  ((texts.zip metadatas).map
    (fun p => (splitText p.1).map (fun c => Document.mk c p.2))).flatten

/-! ### `format_docs` and the LCEL chain (Gemma notebook) -/

/-- Python's `sep.join(parts)`: the parts concatenated with `sep` between
consecutive parts, and the empty string when there are no parts. -/
def pyJoin (sep : String) : List String → String
  | [] => ""
  | p :: ps => ps.foldl (fun acc x => acc ++ sep ++ x) p

/-- `format_docs` from the Gemma notebook:
`"\n\n".join(doc.page_content for doc in docs)`. -/
def format_docs (docs : List Document) : String :=
  pyJoin "\n\n" (docs.map (fun doc => doc.page_content))

/-- The description given by the claim for `format_docs`: the `page_content`
strings joined in input order with the separator `"\n\n"`, and the empty
string for an empty list. -/
def joinedInOrder : List Document → String
  | [] => ""
  | [d] => d.page_content
  | d :: e :: ds => d.page_content ++ "\n\n" ++ joinedInOrder (e :: ds)

/-- The environment of the chain: the retriever backed by the Elasticsearch
store and the Hugging Face pipeline LLM, both managed components consumed as
opaque functions. -/
structure ChainEnv where
  retriever : String → List Document
  llm : String → String

/-- `RunnablePassthrough()`: returns its input unchanged. -/
def runnablePassthrough (q : String) : String := q

/-- `StrOutputParser()` applied to an LLM string output: the string itself. -/
def strOutputParser (s : String) : String := s

/-- The prompt template of the Gemma notebook filled with a context and a
question (the triple-quoted template has an explicit trailing newline escape
on its first line, then a blank line before the context slot). -/
def promptTemplate (context question : String) : String :=
  "Answer the question based only on the following context:\n\n\n" ++ context
    ++ "\n\nQuestion: " ++ question ++ "\n"

/-- Modelled from the spec: the LCEL pipe `a | b` pipes one call's output into
the next call's input. -/
def pipeR {α β γ : Type} (f : α → β) (g : β → γ) : α → γ :=
  fun x => g (f x)

/-- Modelled from the spec: the LCEL dict of runnables runs each entry on the
same input; here the two entries `context` and `question` of the chain. -/
def parallelR {α β γ : Type} (f : α → β) (g : α → γ) : α → β × γ :=
  fun x => (f x, g x)

/-- The chain of the Gemma notebook, mirroring its source shape:
`{"context": retriever | format_docs, "question": RunnablePassthrough()}
 | prompt | llm | StrOutputParser()`. -/
def chain (env : ChainEnv) : String → String :=
  pipeR
    (pipeR
      (pipeR (parallelR (pipeR env.retriever format_docs) runnablePassthrough)
        (fun p => promptTemplate p.1 p.2))
      env.llm)
    strOutputParser

/-- The claim's description of the chain: the strict sequential composition of
its stages — retrieve, format, fill the prompt, run the llm, parse. -/
def sequentialStages (env : ChainEnv) (q : String) : String :=
  strOutputParser (env.llm (promptTemplate (format_docs (env.retriever q)) q))

/-! ### Bulk-action preparation loop (Cohere notebook) -/

/-- A bulk action handed to `helpers.bulk`; `α` is the type of the JSON
documents of the downloaded dataset. -/
structure BulkAction (α : Type) where
  indexField : String
  sourceField : α
deriving DecidableEq, Repr

/-- The document-preparation loop of the Cohere notebook: `for doc in
data_json: documents.append({"_index": "cohere-movie-embeddings",
"_source": doc})`. -/
def prepareDocuments {α : Type} (data_json : List α) : List (BulkAction α) :=
  data_json.foldl
    (fun acc doc => acc ++ [BulkAction.mk "cohere-movie-embeddings" doc]) []

/-! ### Step sequences of the two notebooks

Each code cell of each notebook is translated, in program order, into the
calls it makes.  Neither notebook contains a `try`/`except` block, a retry
loop, or any branching, so every step carries the error policy of its single
underlying call: `propagate` everywhere, except the `indices.delete` call,
which passes `ignore_unavailable=True`. -/

/-- One kind of step a notebook cell performs. -/
inductive StepKind where
  | installPackages
  | importModules
  | readCredential (which : String)
  | createClient
  | clientInfo
  | putInferenceModel (modelId : String)
  | putIngestPipeline (pipelineId : String)
  | indicesDelete (index : String)
  | indicesCreate (index : String)
  | downloadDataset (url : String)
  | splitDocuments
  | indexDocuments (index : String)
  | loadModel (modelId : String)
  | buildPipeline
  | defineFormatDocs
  | buildChain
  | invokeChain (question : String)
  | searchQuery (index : String) (size k numCandidates : Nat)
  | printOutput (what : String)
  | sleep (seconds : Nat)
deriving DecidableEq, Repr

/-- How a step treats a failure of its underlying call: `propagate` lets the
exception escape to the caller; `suppressMissing` is `ignore_unavailable=True`
on `indices.delete`, which turns the index-not-found failure into success. -/
inductive ErrorPolicy where
  | propagate
  | suppressMissing
deriving DecidableEq, Repr

/-- A step of a notebook: what it does and how it treats failures. -/
structure Step where
  kind : StepKind
  policy : ErrorPolicy
deriving DecidableEq, Repr

/-- The steps of the Cohere inference notebook, in cell order. -/
def cohereSteps : List Step :=
  [⟨.installPackages, .propagate⟩,
   ⟨.importModules, .propagate⟩,
   ⟨.readCredential "ELASTIC_CLOUD_ID", .propagate⟩,
   ⟨.readCredential "ELASTIC_API_KEY", .propagate⟩,
   ⟨.createClient, .propagate⟩,
   ⟨.clientInfo, .propagate⟩,
   ⟨.readCredential "COHERE_API_KEY", .propagate⟩,
   ⟨.putInferenceModel "cohere_embeddings", .propagate⟩,
   ⟨.putIngestPipeline "cohere_embeddings", .propagate⟩,
   ⟨.indicesDelete "cohere-movie-embeddings", .suppressMissing⟩,
   ⟨.indicesCreate "cohere-movie-embeddings", .propagate⟩,
   ⟨.downloadDataset "https://raw.githubusercontent.com/elastic/elasticsearch-labs/main/notebooks/search/movies.json", .propagate⟩,
   ⟨.splitDocuments, .propagate⟩,
   ⟨.indexDocuments "cohere-movie-embeddings", .propagate⟩,
   ⟨.printOutput "done indexing", .propagate⟩,
   ⟨.sleep 3, .propagate⟩,
   ⟨.searchQuery "cohere-movie-embeddings" 3 10 100, .propagate⟩,
   ⟨.printOutput "search results", .propagate⟩]

/-- The steps of the Gemma RAG notebook, in cell order. -/
def gemmaSteps : List Step :=
  [⟨.installPackages, .propagate⟩,
   ⟨.importModules, .propagate⟩,
   ⟨.readCredential "ELASTIC_API_KEY", .propagate⟩,
   ⟨.readCredential "ELASTIC_CLOUD_ID", .propagate⟩,
   ⟨.downloadDataset "https://raw.githubusercontent.com/elastic/elasticsearch-labs/main/datasets/workplace-documents.json", .propagate⟩,
   ⟨.splitDocuments, .propagate⟩,
   ⟨.indexDocuments "gemma-rag", .propagate⟩,
   ⟨.readCredential "HUGGING_FACE_TOKEN", .propagate⟩,
   ⟨.loadModel "google/gemma-2b-it", .propagate⟩,
   ⟨.buildPipeline, .propagate⟩,
   ⟨.defineFormatDocs, .propagate⟩,
   ⟨.buildChain, .propagate⟩,
   ⟨.invokeChain "What is the pet policy in the office?", .propagate⟩]

/-- Is this step an interactive credential read (`getpass` /
`notebook_login`)? -/
def isCredentialRead : StepKind → Bool
  | .readCredential _ => true
  | _ => false

/-- Is this step a call to a managed service (the Elasticsearch cluster, the
Cohere inference service through it, or the Hugging Face model hub)? -/
def isManagedCall : StepKind → Bool
  | .clientInfo => true
  | .putInferenceModel _ => true
  | .putIngestPipeline _ => true
  | .indicesDelete _ => true
  | .indicesCreate _ => true
  | .indexDocuments _ => true
  | .loadModel _ => true
  | .invokeChain _ => true
  | .searchQuery _ _ _ _ => true
  | _ => false

/-- Is this step the JSON dataset download? -/
def isDatasetDownload : StepKind → Bool
  | .downloadDataset _ => true
  | _ => false

/-- Is this step an indexing of documents into the store? -/
def isIndexingStep : StepKind → Bool
  | .indexDocuments _ => true
  | _ => false

/-- Is this step the search or question-answering query? -/
def isQueryStep : StepKind → Bool
  | .searchQuery _ _ _ _ => true
  | .invokeChain _ => true
  | _ => false

/-- Is this step the display of the final results (the search-results print
loop of the Cohere notebook, the chain invocation whose answer the Gemma
notebook displays)? -/
def isResultDisplay : StepKind → Bool
  | .printOutput "search results" => true
  | .invokeChain _ => true
  | _ => false

/-- Is this step the interactive read of the named credential? -/
def isCredentialNamed (which : String) : StepKind → Bool
  | .readCredential w => w == which
  | _ => false

/-- Is this step the creation of the inference endpoint (the call that
transmits the Cohere API key)? -/
def isPutInferenceModel : StepKind → Bool
  | .putInferenceModel _ => true
  | _ => false

/-- Is this step a call that talks to the Elasticsearch deployment (and so
needs the Elastic credentials)? -/
def usesElastic : StepKind → Bool
  | .clientInfo => true
  | .putInferenceModel _ => true
  | .putIngestPipeline _ => true
  | .indicesDelete _ => true
  | .indicesCreate _ => true
  | .indexDocuments _ => true
  | .invokeChain _ => true
  | .searchQuery _ _ _ _ => true
  | _ => false

/-- Is this step the Hugging Face hub model download (the call that needs the
Hugging Face token)? -/
def usesHuggingFace : StepKind → Bool
  | .loadModel _ => true
  | _ => false

/-- Is this step a delete of stored data (an index or documents)? -/
def isDeleteCall : StepKind → Bool
  | .indicesDelete _ => true
  | _ => false

/-- Is this step an update of stored data?  Neither notebook has an update
call, so no step kind qualifies. -/
def isUpdateCall : StepKind → Bool := fun _ => false

/-- Every step of `l` satisfying `p` occurs strictly before every step of `l`
satisfying `q`. -/
abbrev allBefore (p q : StepKind → Bool) (l : List Step) : Prop :=
  ∀ i j : Fin l.length, p (l.get i).kind → q (l.get j).kind → (i : Nat) < j

/-- The last step of `l` is the display of the final results. -/
def lastIsResultDisplay (l : List Step) : Bool :=
  match l.getLast? with
  | some s => isResultDisplay s.kind
  | none => false

/-- The ordering asserted by the claim for one notebook: all credential reads
before any managed-service call, dataset download before indexing, indexing
before the query, and the results displayed last. -/
abbrev claimedOrder (l : List Step) : Prop :=
  allBefore isCredentialRead isManagedCall l
    ∧ allBefore isDatasetDownload isIndexingStep l
    ∧ allBefore isIndexingStep isQueryStep l
    ∧ lastIsResultDisplay l = true

/-! ### The index-setup cell (Cohere notebook)

`client.indices.delete(index="cohere-movie-embeddings",
ignore_unavailable=True)` followed by `client.indices.create(...)`.  The
cluster is modelled as an association list from index name to live index. -/

/-- A field mapping of the created index. -/
inductive FieldMapping where
  | denseVector (dims : Nat) (elementType : String)
  | text
deriving DecidableEq, Repr

/-- The configuration of an index: its default ingest pipeline setting and its
field mappings. -/
structure IndexConfig where
  defaultPipeline : String
  mappings : List (String × FieldMapping)
deriving DecidableEq, Repr

/-- A live index: its configuration and the documents it holds. -/
structure LiveIndex where
  config : IndexConfig
  docs : List String
deriving DecidableEq, Repr

/-- The cluster's indices, as an association list from index name. -/
abbrev Cluster : Type := List (String × LiveIndex)

/-- Errors of the two index-management calls. -/
inductive EsError where
  | indexNotFound
  | resourceAlreadyExists
deriving DecidableEq, Repr

/-- Modelled from the spec: the Elasticsearch service itself is not part of
this repository; per its documented behaviour, deleting an index removes it,
and when the index does not exist the call fails with index-not-found unless
`ignore_unavailable` is set, in which case it succeeds without change. -/
def indicesDeleteOp (ignoreUnavailable : Bool) (name : String) (c : Cluster) :
    Except EsError Cluster :=
  if c.any (fun p => p.1 == name) then
    Except.ok (c.filter (fun p => p.1 != name))
  else if ignoreUnavailable then Except.ok c
  else Except.error EsError.indexNotFound

/-- Modelled from the spec: creating an index adds a fresh, empty index with
the given configuration, and fails if an index of that name exists. -/
def indicesCreateOp (name : String) (cfg : IndexConfig) (c : Cluster) :
    Except EsError Cluster :=
  if c.any (fun p => p.1 == name) then Except.error EsError.resourceAlreadyExists
  else Except.ok ((name, LiveIndex.mk cfg []) :: c)

/-- The settings and mappings the Cohere notebook passes to
`indices.create`. -/
def cohereIndexConfig : IndexConfig :=
  ⟨"cohere_embeddings",
   [("plot_embedding", FieldMapping.denseVector 1024 "byte"),
    ("plot", FieldMapping.text)]⟩

/-- The index-setup cell: delete `cohere-movie-embeddings` with
`ignore_unavailable=True`, then create it with the notebook's settings and
mappings. -/
def indexSetupCell (c : Cluster) : Except EsError Cluster :=
  (indicesDeleteOp true "cohere-movie-embeddings" c).bind
    (indicesCreateOp "cohere-movie-embeddings" cohereIndexConfig)

/-! ### The semantic-search call (Cohere notebook) -/

/-- A scored hit of the movie index (scores abstracted to naturals). -/
structure Hit where
  score : Nat
  title : String
  plot : String
deriving DecidableEq, Repr

/-- Insert a hit into a list sorted by descending score. -/
def insertRanked (h : Hit) : List Hit → List Hit
  | [] => [h]
  | x :: xs => if h.score ≤ x.score then x :: insertRanked h xs else h :: x :: xs

/-- Rank hits by descending score (insertion sort). -/
def rankByScore (l : List Hit) : List Hit :=
  l.foldr insertRanked []

/-- Modelled from the spec: Elasticsearch's search semantics are not part of
this repository; per its documented behaviour the kNN clause considers up to
`num_candidates` candidates, keeps the `k` best-scoring hits, and the response
returns at most `size` of them. -/
def searchHits (size k numCandidates : Nat) (indexDocs : List Hit) : List Hit :=
  ((rankByScore (indexDocs.take numCandidates)).take k).take size

/-- The semantic-search call of the Cohere notebook: `size=3`, kNN `k=10`,
`num_candidates=100`. -/
def cohereSearch (indexDocs : List Hit) : List Hit :=
  searchHits 3 10 100 indexDocs

/-! ## Theorems -/

/-! ### Helper lemmas -/

theorem chunksOf_nil (n : Nat) : chunksOf n [] = [] := by
  unfold chunksOf; simp

theorem chunksOf_cons (n : Nat) (s : List Char) (hs : s ≠ []) (hn : n ≠ 0) :
    chunksOf n s = s.take n :: chunksOf n (s.drop n) := by
  rw [chunksOf]
  simp [hs, hn]

theorem chunksOf_length_le (n : Nat) (s : List Char) (hn : 0 < n) :
    ∀ c ∈ chunksOf n s, c.length ≤ n := by
  induction s using chunksOf.induct n with
  | case1 => simp [chunksOf_nil]
  | case2 s hs hn0 => omega
  | case3 s hs hn0 ih =>
    rw [chunksOf_cons n s hs hn0]
    intro c hc
    rcases List.mem_cons.mp hc with h | h
    · subst h; simp [List.length_take_le n s]
    · exact ih c h

theorem chunksOf_flatten (n : Nat) (s : List Char) :
    (chunksOf n s).flatten = s := by
  induction s using chunksOf.induct n with
  | case1 => simp [chunksOf_nil]
  | case2 s hs hn0 => subst hn0; rw [chunksOf]; simp [hs]
  | case3 s hs hn0 ih =>
    rw [chunksOf_cons n s hs hn0]
    simp [ih]

theorem foldl_append_singleton {α β : Type} (f : α → β) (l : List α)
    (acc : List β) :
    l.foldl (fun a d => a ++ [f d]) acc = acc ++ l.map f := by
  induction l generalizing acc with
  | nil => simp
  | cons d l ih => simp [ih]

theorem contentList_eq_map (docs : List WorkplaceDoc) :
    contentList docs = docs.map (fun d => d.content) := by
  simpa using foldl_append_singleton (fun d : WorkplaceDoc => d.content) docs []

theorem metadataList_eq_map (docs : List WorkplaceDoc) :
    metadataList docs = docs.map metadataOf := by
  simpa using foldl_append_singleton metadataOf docs []

/-! ### Claim C1 -/

/-- Claim C1: with chunk_size 50 and chunk_overlap 0, every chunk produced by
the text-splitting step has at most 50 characters, and the chunks concatenate
back to the original text — the chunks partition the text into consecutive
disjoint segments, so no two consecutive chunks share any characters. -/
theorem splitter_chunk_size_and_no_overlap (s : List Char) :
    (∀ c ∈ chunksOf 50 s, c.length ≤ 50) ∧ (chunksOf 50 s).flatten = s :=
  ⟨chunksOf_length_le 50 s (by omega), chunksOf_flatten 50 s⟩

/-- Witness for C1 at a concrete document text. -/
theorem splitter_chunk_size_and_no_overlap_witness :
    (∀ c ∈ chunksOf 50 ("Effective March 2020, our company will be providing remote work options.".toList),
        c.length ≤ 50)
      ∧ (chunksOf 50 ("Effective March 2020, our company will be providing remote work options.".toList)).flatten
        = "Effective March 2020, our company will be providing remote work options.".toList :=
  splitter_chunk_size_and_no_overlap
    ("Effective March 2020, our company will be providing remote work options.".toList)

/-! ### Claim C3 -/

/-- Claim C3: every chunk produced by the splitting step comes from a parent
document of the downloaded dataset and carries exactly the metadata (name,
summary, rolePermissions) copied from that parent; moreover the output is the
concatenation of the per-parent chunk groups (its length is the sum of the
per-parent chunk counts), so each chunk occurrence belongs to exactly one
parent. -/
theorem chunks_metadata_copied_from_unique_parent
    (workplace_docs : List WorkplaceDoc) :
    (∀ ch ∈ create_documents (contentList workplace_docs)
        (metadataList workplace_docs),
        ∃ d ∈ workplace_docs,
          ch.metadata = metadataOf d ∧ ch.page_content ∈ splitText d.content)
    ∧ (create_documents (contentList workplace_docs)
        (metadataList workplace_docs)).length
        = (workplace_docs.map (fun d => (splitText d.content).length)).sum := by
  rw [contentList_eq_map, metadataList_eq_map, create_documents,
    List.zip_map' (fun d : WorkplaceDoc => d.content) metadataOf workplace_docs,
    List.map_map]
  constructor
  · intro ch hch
    simp only [List.mem_flatten, List.mem_map, Function.comp] at hch
    obtain ⟨grp, ⟨d, hd, rfl⟩, hchg⟩ := hch
    simp only [List.mem_map] at hchg
    obtain ⟨c, hc, rfl⟩ := hchg
    exact ⟨d, hd, rfl, hc⟩
  · simp [List.length_flatten, List.map_map, Function.comp_def]

/-- Witness for C3 at a concrete one-document dataset. -/
theorem chunks_metadata_copied_from_unique_parent_witness :
    (∀ ch ∈ create_documents
        (contentList [WorkplaceDoc.mk "Pets are welcome." "Pet policy" "Summary" "demo"])
        (metadataList [WorkplaceDoc.mk "Pets are welcome." "Pet policy" "Summary" "demo"]),
        ∃ d ∈ [WorkplaceDoc.mk "Pets are welcome." "Pet policy" "Summary" "demo"],
          ch.metadata = metadataOf d ∧ ch.page_content ∈ splitText d.content)
    ∧ (create_documents
        (contentList [WorkplaceDoc.mk "Pets are welcome." "Pet policy" "Summary" "demo"])
        (metadataList [WorkplaceDoc.mk "Pets are welcome." "Pet policy" "Summary" "demo"])).length
        = ([WorkplaceDoc.mk "Pets are welcome." "Pet policy" "Summary" "demo"].map
            (fun d => (splitText d.content).length)).sum :=
  chunks_metadata_copied_from_unique_parent
    [WorkplaceDoc.mk "Pets are welcome." "Pet policy" "Summary" "demo"]

/-! ### Claim C6 -/

theorem pyJoin_foldl_shift (sep : String) (ys : List String) (a b : String) :
    ys.foldl (fun acc z => acc ++ sep ++ z) (a ++ b)
      = a ++ ys.foldl (fun acc z => acc ++ sep ++ z) b := by
  induction ys generalizing b with
  | nil => rfl
  | cons z ys ih =>
    simp only [List.foldl_cons]
    have h : a ++ b ++ sep ++ z = a ++ (b ++ sep ++ z) := by
      simp [String.append_assoc]
    rw [h, ih]

theorem pyJoin_cons_cons (sep x y : String) (ys : List String) :
    pyJoin sep (x :: y :: ys) = x ++ sep ++ pyJoin sep (y :: ys) := by
  simp only [pyJoin, List.foldl_cons]
  rw [pyJoin_foldl_shift sep ys (x ++ sep) y]

/-- Claim C6: for every list of retrieved documents, `format_docs` returns the
`page_content` strings joined in input order with the separator `"\n\n"`, and
the empty string on the empty list. -/
theorem format_docs_joins_page_contents (docs : List Document) :
    format_docs docs = joinedInOrder docs := by
  induction docs with
  | nil => rfl
  | cons d ds ih =>
    cases ds with
    | nil => rfl
    | cons e ds =>
      rw [joinedInOrder, ← ih]
      simp only [format_docs, List.map_cons]
      exact pyJoin_cons_cons "\n\n" d.page_content e.page_content
        (List.map (fun doc => doc.page_content) ds)

/-- Witness for C6 at a concrete two-document list (and, via the theorem's
statement, the empty-list case follows at `[]`). -/
theorem format_docs_joins_page_contents_witness :
    format_docs [Document.mk "first chunk" (DocMetadata.mk "a" "b" "c"),
        Document.mk "second chunk" (DocMetadata.mk "a" "b" "c")]
      = joinedInOrder [Document.mk "first chunk" (DocMetadata.mk "a" "b" "c"),
        Document.mk "second chunk" (DocMetadata.mk "a" "b" "c")] :=
  format_docs_joins_page_contents
    [Document.mk "first chunk" (DocMetadata.mk "a" "b" "c"),
     Document.mk "second chunk" (DocMetadata.mk "a" "b" "c")]

/-! ### Claim C5 -/

/-- Claim C5: for every question string, the RAG chain's output equals the
strict sequential composition of its stages — retrieve documents for the
question, apply `format_docs` to them, fill the prompt template with that
context and the question, run the llm on the filled prompt, and parse the
result with `StrOutputParser` — with no feedback loop or retry between
stages. -/
theorem chain_is_sequential_composition (env : ChainEnv) (q : String) :
    chain env q = sequentialStages env q := rfl

/-- Witness for C5 at a concrete environment and the notebook's question. -/
theorem chain_is_sequential_composition_witness :
    chain (ChainEnv.mk (fun _ => []) (fun s => s))
        "What is the pet policy in the office?"
      = sequentialStages (ChainEnv.mk (fun _ => []) (fun s => s))
        "What is the pet policy in the office?" :=
  chain_is_sequential_composition (ChainEnv.mk (fun _ => []) (fun s => s))
    "What is the pet policy in the office?"

/-! ### Claim C7 -/

/-- Claim C7: the document-preparation loop of the Cohere notebook maps each
element of the downloaded JSON list to exactly one bulk action whose index
field is "cohere-movie-embeddings" and whose source field is the original
document unchanged, preserving the list's order and length. -/
theorem prepareDocuments_maps_each_doc {α : Type} (data_json : List α) :
    prepareDocuments data_json
        = data_json.map (fun doc => BulkAction.mk "cohere-movie-embeddings" doc)
      ∧ (prepareDocuments data_json).length = data_json.length := by
  have h := foldl_append_singleton
    (fun doc : α => BulkAction.mk "cohere-movie-embeddings" doc) data_json []
  refine ⟨by simpa [prepareDocuments] using h, ?_⟩
  rw [prepareDocuments, h]
  simp

/-- Witness for C7 at a concrete two-document dataset. -/
theorem prepareDocuments_maps_each_doc_witness :
    prepareDocuments ["movie one", "movie two"]
        = ["movie one", "movie two"].map
            (fun doc => BulkAction.mk "cohere-movie-embeddings" doc)
      ∧ (prepareDocuments ["movie one", "movie two"]).length
        = (["movie one", "movie two"] : List String).length :=
  prepareDocuments_maps_each_doc ["movie one", "movie two"]

/-! ### Claim C2 -/

/-- Counterexample to C2 as stated: not every step of the two notebooks lets
its failure propagate — the index-setup cell's `indices.delete` passes
`ignore_unavailable=True`, which suppresses the index-not-found failure. -/
theorem no_error_suppression_counterexample :
    ¬ ∀ s ∈ cohereSteps ++ gemmaSteps, s.policy = ErrorPolicy.propagate := by
  decide

/-- Claim C2 (amended): every step of either notebook propagates failures of
its underlying call unhandled, except the single `indices.delete` call of the
Cohere notebook, which passes `ignore_unavailable=True` and thereby suppresses
the index-not-found failure; no step catches, retries, or otherwise recovers
from an error. -/
theorem only_index_delete_suppresses (s : Step)
    (hs : s ∈ cohereSteps ++ gemmaSteps) :
    s.policy = ErrorPolicy.propagate
      ∨ s.kind = StepKind.indicesDelete "cohere-movie-embeddings" := by
  have h : ∀ x ∈ cohereSteps ++ gemmaSteps,
      x.policy = ErrorPolicy.propagate
        ∨ x.kind = StepKind.indicesDelete "cohere-movie-embeddings" := by decide
  exact h s hs

/-- Witness for the amended C2 at a concrete step. -/
theorem only_index_delete_suppresses_witness :
    (Step.mk StepKind.installPackages ErrorPolicy.propagate).policy
        = ErrorPolicy.propagate
      ∨ (Step.mk StepKind.installPackages ErrorPolicy.propagate).kind
        = StepKind.indicesDelete "cohere-movie-embeddings" :=
  only_index_delete_suppresses
    (Step.mk StepKind.installPackages ErrorPolicy.propagate) (by decide)

/-! ### Claim C4 -/

/-- Counterexample to C4 as stated: a delete call does occur — the Cohere
notebook's index-setup cell calls `client.indices.delete` on the stored index
`cohere-movie-embeddings`. -/
theorem no_delete_or_update_counterexample :
    ¬ ∀ s ∈ cohereSteps ++ gemmaSteps,
        isDeleteCall s.kind = false ∧ isUpdateCall s.kind = false := by
  decide

/-- Claim C4 (amended): no step of either notebook performs an update, and the
only delete across both notebooks is the index-level `indices.delete` of the
Cohere notebook's index-setup cell; the Gemma notebook performs no delete at
all. -/
theorem only_delete_is_cohere_index_setup (s : Step)
    (hs : s ∈ cohereSteps ++ gemmaSteps) :
    isUpdateCall s.kind = false
      ∧ (isDeleteCall s.kind = true →
          s.kind = StepKind.indicesDelete "cohere-movie-embeddings")
      ∧ (s ∈ gemmaSteps → isDeleteCall s.kind = false) := by
  have h : ∀ x ∈ cohereSteps ++ gemmaSteps,
      isUpdateCall x.kind = false
        ∧ (isDeleteCall x.kind = true →
            x.kind = StepKind.indicesDelete "cohere-movie-embeddings")
        ∧ (x ∈ gemmaSteps → isDeleteCall x.kind = false) := by decide
  exact h s hs

/-- Witness for the amended C4 at the delete step itself. -/
theorem only_delete_is_cohere_index_setup_witness :
    isUpdateCall (Step.mk (StepKind.indicesDelete "cohere-movie-embeddings")
        ErrorPolicy.suppressMissing).kind = false
      ∧ (isDeleteCall (Step.mk (StepKind.indicesDelete "cohere-movie-embeddings")
            ErrorPolicy.suppressMissing).kind = true →
          (Step.mk (StepKind.indicesDelete "cohere-movie-embeddings")
            ErrorPolicy.suppressMissing).kind
            = StepKind.indicesDelete "cohere-movie-embeddings")
      ∧ (Step.mk (StepKind.indicesDelete "cohere-movie-embeddings")
            ErrorPolicy.suppressMissing ∈ gemmaSteps →
          isDeleteCall (Step.mk (StepKind.indicesDelete "cohere-movie-embeddings")
            ErrorPolicy.suppressMissing).kind = false) :=
  only_delete_is_cohere_index_setup
    (Step.mk (StepKind.indicesDelete "cohere-movie-embeddings")
      ErrorPolicy.suppressMissing) (by decide)

/-! ### Claim C8 -/

/-- Counterexample to C8 as stated: the claimed order fails — in the Cohere
notebook the managed call `print(client.info())` precedes the interactive read
of the Cohere API key, and in the Gemma notebook the Elasticsearch indexing
call precedes the interactive Hugging Face login. -/
theorem notebook_order_counterexample :
    ¬ (claimedOrder cohereSteps ∧ claimedOrder gemmaSteps) := by
  decide

/-- Claim C8 (amended): in each notebook, each credential is read before the
first managed-service call that uses it (the Elastic credentials before every
Elasticsearch call, the Cohere API key before the inference-endpoint creation,
the Hugging Face token before the model download), the JSON dataset is
downloaded before any document is indexed, indexing completes before the
search or question-answering query, and the results are displayed last;
however, not every credential read precedes every managed-service call — in
the Cohere notebook `client.info()` precedes the Cohere key read, and in the
Gemma notebook the indexing call precedes the Hugging Face login. -/
theorem notebook_order_amended :
    allBefore (isCredentialNamed "ELASTIC_CLOUD_ID") isManagedCall cohereSteps
    ∧ allBefore (isCredentialNamed "ELASTIC_API_KEY") isManagedCall cohereSteps
    ∧ allBefore (isCredentialNamed "COHERE_API_KEY") isPutInferenceModel cohereSteps
    ∧ allBefore isDatasetDownload isIndexingStep cohereSteps
    ∧ allBefore isIndexingStep isQueryStep cohereSteps
    ∧ lastIsResultDisplay cohereSteps = true
    ∧ allBefore (isCredentialNamed "ELASTIC_API_KEY") usesElastic gemmaSteps
    ∧ allBefore (isCredentialNamed "ELASTIC_CLOUD_ID") usesElastic gemmaSteps
    ∧ allBefore (isCredentialNamed "HUGGING_FACE_TOKEN") usesHuggingFace gemmaSteps
    ∧ allBefore isDatasetDownload isIndexingStep gemmaSteps
    ∧ allBefore isIndexingStep isQueryStep gemmaSteps
    ∧ lastIsResultDisplay gemmaSteps = true :=
  ⟨by decide, by decide, by decide, by decide, by decide, by decide,
   by decide, by decide, by decide, by decide, by decide, by decide⟩

/-! ### Claim C9 -/

theorem any_filter_ne_key (name : String) (c : Cluster) :
    (c.filter (fun p => p.1 != name)).any (fun p => p.1 == name) = false := by
  induction c with
  | nil => rfl
  | cons p c ih =>
    rw [List.filter_cons]
    by_cases hq : (p.1 == name) = true
    · rw [if_neg (by simp [bne, hq])]
      exact ih
    · rw [if_pos (by simp [bne, hq]), List.any_cons, ih]
      simp [hq]

theorem filter_ne_key_of_not_any (name : String) (c : Cluster)
    (h : c.any (fun p => p.1 == name) = false) :
    c.filter (fun p => p.1 != name) = c := by
  induction c with
  | nil => rfl
  | cons p c ih =>
    rw [List.any_cons, Bool.or_eq_false_iff] at h
    rw [List.filter_cons, if_pos (by simp [bne, h.1]), ih h.2]

theorem filter_ne_key_idem (name : String) (c : Cluster) :
    (c.filter (fun p => p.1 != name)).filter (fun p => p.1 != name)
      = c.filter (fun p => p.1 != name) := by
  rw [List.filter_filter]
  simp

/-- Claim C9: the index-setup cell of the Cohere notebook is idempotent —
because it first deletes the index with `ignore_unavailable=True` and then
creates it, it succeeds from every prior cluster state, the resulting state of
the index `cohere-movie-embeddings` is the same fresh empty index with the
notebook's settings and mappings whether or not the index previously existed,
and running the cell on its own result changes nothing. -/
theorem index_setup_cell_idempotent (c : Cluster) :
    ∃ c1, indexSetupCell c = Except.ok c1
      ∧ c1.lookup "cohere-movie-embeddings"
          = some (LiveIndex.mk cohereIndexConfig [])
      ∧ indexSetupCell c1 = Except.ok c1 := by
  by_cases h : c.any (fun p => p.1 == "cohere-movie-embeddings") = true
  · refine ⟨("cohere-movie-embeddings", LiveIndex.mk cohereIndexConfig [])
        :: c.filter (fun p => p.1 != "cohere-movie-embeddings"), ?_, ?_, ?_⟩
    · rw [indexSetupCell, indicesDeleteOp]
      simp only [h, if_true, Except.bind]
      rw [indicesCreateOp]
      simp [any_filter_ne_key]
    · simp [List.lookup]
    · rw [indexSetupCell, indicesDeleteOp]
      simp only [List.any_cons, beq_self_eq_true, Bool.true_or, if_true,
        Except.bind]
      rw [indicesCreateOp]
      simp [List.filter_cons, any_filter_ne_key, filter_ne_key_idem]
  · rw [Bool.not_eq_true] at h
    refine ⟨("cohere-movie-embeddings", LiveIndex.mk cohereIndexConfig [])
        :: c, ?_, ?_, ?_⟩
    · rw [indexSetupCell, indicesDeleteOp]
      simp only [h, if_false, Bool.false_eq_true, if_true, Except.bind]
      rw [indicesCreateOp]
      simp [h]
    · simp [List.lookup]
    · rw [indexSetupCell, indicesDeleteOp]
      simp only [List.any_cons, beq_self_eq_true, Bool.true_or, if_true,
        Except.bind]
      rw [indicesCreateOp]
      simp [List.filter_cons, filter_ne_key_of_not_any _ _ h,
        any_filter_ne_key, h]

/-- Witness for C9 at a concrete cluster in which the index already exists
alongside another index. -/
theorem index_setup_cell_idempotent_witness :
    ∃ c1, indexSetupCell
        [("cohere-movie-embeddings",
           LiveIndex.mk (IndexConfig.mk "old" []) ["stale doc"]),
         ("other-index", LiveIndex.mk (IndexConfig.mk "p" []) [])]
        = Except.ok c1
      ∧ c1.lookup "cohere-movie-embeddings"
          = some (LiveIndex.mk cohereIndexConfig [])
      ∧ indexSetupCell c1 = Except.ok c1 :=
  index_setup_cell_idempotent
    [("cohere-movie-embeddings",
       LiveIndex.mk (IndexConfig.mk "old" []) ["stale doc"]),
     ("other-index", LiveIndex.mk (IndexConfig.mk "p" []) [])]

/-! ### Claim C10 -/

/-- Claim C10: for every content of the movie index, the semantic-search
response of the Cohere notebook contains at most 3 hits, because the request
sets `size=3` even though its kNN clause asks for `k=10` nearest neighbours
out of `num_candidates=100`. -/
theorem cohere_search_at_most_three_hits (indexDocs : List Hit) :
    (cohereSearch indexDocs).length ≤ 3 := by
  unfold cohereSearch searchHits
  rw [List.length_take]
  exact Nat.min_le_left _ _

/-- Witness for C10 at a concrete index holding five hits. -/
theorem cohere_search_at_most_three_hits_witness :
    (cohereSearch
        [Hit.mk 7 "Fight Club" "an underground fight club",
         Hit.mk 6 "Pulp Fiction" "four tales of violence",
         Hit.mk 6 "The Dark Knight" "the Joker wreaks havoc",
         Hit.mk 2 "Forrest Gump" "several decades of history",
         Hit.mk 1 "The Matrix" "a computer hacker learns"]).length ≤ 3 :=
  cohere_search_at_most_three_hits
    [Hit.mk 7 "Fight Club" "an underground fight club",
     Hit.mk 6 "Pulp Fiction" "four tales of violence",
     Hit.mk 6 "The Dark Knight" "the Joker wreaks havoc",
     Hit.mk 2 "Forrest Gump" "several decades of history",
     Hit.mk 1 "The Matrix" "a computer hacker learns"]

end ElasticsearchLabs
